import Mathlib

/-!
Verification of the ChemTSv2 excerpt: the D-score reward module
(`reward/dscore_reward.py`) and the run-script configuration logic
(`run_chemts.py`), shallowly embedded in Lean 4.

Conventions of the embedding:
* Python floats are modelled as real numbers (`ℝ`); `v ** w` on floats is
  modelled by `Real.rpow`.
* A Python function that may raise is modelled with `Option` (or `Except`):
  `none` (`Except.error`) is an uncaught exception, `some r` a returned value.
* A Python value that may be `None` is an `Option`.
-/

namespace ChemTS

/-! ### Shaping functions (`misc/scaler.py`)

The module `misc.scaler` is imported by `reward/dscore_reward.py` but its
source is not part of the excerpt, so the three shaping functions are
modelled from the spec. -/

/-- Modelled from the spec: `misc.scaler.max_gauss`, a monotone (increasing)
"max-Gaussian" shaping function onto `[0,1]`: it saturates at `1` above a
center `μ = 8` and follows a Gaussian bump (width `σ = 2`) below it.
The source of `misc/scaler.py` is missing from the excerpt. -/
noncomputable def max_gauss (x : ℝ) : ℝ :=
  if x > 8 then 1 else Real.exp (-((x - 8) ^ 2) / 8)

/-- Modelled from the spec: `misc.scaler.min_gauss`, a monotone (decreasing)
"min-Gaussian" shaping function onto `[0,1]`: it saturates at `1` below a
center `μ = 2` and follows a Gaussian bump (width `σ = 2`) above it.
The source of `misc/scaler.py` is missing from the excerpt. -/
noncomputable def min_gauss (x : ℝ) : ℝ :=
  if x < 2 then 1 else Real.exp (-((x - 2) ^ 2) / 8)

/-- Modelled from the spec: `misc.scaler.minmax`, linear min-max rescaling of
`x` from the interval `[mi, ma]` onto `[0,1]`.
The source of `misc/scaler.py` is missing from the excerpt. -/
noncomputable def minmax (x mi ma : ℝ) : ℝ :=
  (x - mi) / (ma - mi)

/-! ### The D-score reward calculator (`reward/dscore_reward.py`) -/

/-- The `scaling_function` sub-dictionary of the reward configuration:
the names of the shaping functions chosen for the two bioactivity
sub-objectives (read as `scaling["egfr"]` and `scaling["bace1"]`). -/
structure ScalingFunction where
  egfr : String
  bace1 : String

/-- The part of the configuration dictionary read by
`calc_reward_from_objective_values`: `conf["weight"]` (its `.values()` in
insertion order) and `conf["scaling_function"]`. -/
structure RewardConf where
  weight : List ℝ
  scaling_function : ScalingFunction

/-- The scaling dispatch performed (twice, once per bioactivity
sub-objective) in `calc_reward_from_objective_values`, lines 56–67:
`max_gauss` and `min_gauss` are the only recognised settings; any other
setting leaves the scaled value `None`. -/
noncomputable def scale_value (s : String) (x : ℝ) : Option ℝ :=
  if s = "max_gauss" then some (max_gauss x)
  else if s = "min_gauss" then some (min_gauss x)
  else none

/-- The accumulation loop
`for v, w in zip(scaled_values, weight.values()): multiplication_value *= v**w`
with accumulator `m`.  `zip` truncates to the shorter list.  A `None` entry
among the scaled values raises `TypeError` (modelled `none`), and `0.0 ** w`
for negative `w` raises `ZeroDivisionError` (modelled `none`). -/
noncomputable def powProd : List (Option ℝ) → List ℝ → ℝ → Option ℝ
  | [], _, m => some m
  | _ :: _, [], m => some m
  | none :: _, _ :: _, _ => none
  | some v :: vs, w :: ws, m =>
      if v = 0 ∧ w < 0 then none else powProd vs ws (m * v ^ w)

/-- `calc_reward_from_objective_values(values, conf)` from
`reward/dscore_reward.py` lines 50–76.  `values` is the list of the four
sub-objective outputs (each possibly `None`); the result is `some r` when the
call returns `r` and `none` when it raises (scaled value `None` in the
product, unpacking failure, or division by a zero weight sum). -/
noncomputable def calc_reward_from_objective_values
    (values : List (Option ℝ)) (conf : RewardConf) : Option ℝ :=
  if none ∈ values then some (-1)
  else
    match values with
    | [some egfr, some bace1, some sascore, some qed] =>
        let scaled_egfr := scale_value conf.scaling_function.egfr egfr
        let scaled_bace1 := scale_value conf.scaling_function.bace1 bace1
        let scaled_sascore := minmax (-1 * sascore) (-10) (-1)
        let scaled_values := [scaled_egfr, scaled_bace1, some scaled_sascore, some qed]
        match powProd scaled_values conf.weight 1 with
        | none => none
        | some multiplication_value =>
            if conf.weight.sum = 0 then none
            else some (multiplication_value ^ ((1 : ℝ) / conf.weight.sum))
    | _ => none

/-! ### Range lemmas for the shaping functions -/

lemma max_gauss_mem_Icc (x : ℝ) : max_gauss x ∈ Set.Icc (0 : ℝ) 1 := by
  unfold max_gauss
  by_cases h : x > 8
  · rw [if_pos h]; constructor <;> norm_num
  · rw [if_neg h]
    refine ⟨(Real.exp_pos _).le, Real.exp_le_one_iff.mpr ?_⟩
    have : (0 : ℝ) ≤ (x - 8) ^ 2 := sq_nonneg _
    nlinarith

lemma min_gauss_mem_Icc (x : ℝ) : min_gauss x ∈ Set.Icc (0 : ℝ) 1 := by
  unfold min_gauss
  by_cases h : x < 2
  · rw [if_pos h]; constructor <;> norm_num
  · rw [if_neg h]
    refine ⟨(Real.exp_pos _).le, Real.exp_le_one_iff.mpr ?_⟩
    have : (0 : ℝ) ≤ (x - 2) ^ 2 := sq_nonneg _
    nlinarith

lemma minmax_sascore_mem_Icc {s : ℝ} (h1 : 1 ≤ s) (h10 : s ≤ 10) :
    minmax (-1 * s) (-10) (-1) ∈ Set.Icc (0 : ℝ) 1 := by
  unfold minmax
  constructor
  · apply div_nonneg <;> nlinarith
  · rw [div_le_one (by norm_num)]; nlinarith

lemma powProd_mem_Icc :
    ∀ (vs : List (Option ℝ)) (ws : List ℝ) (m : ℝ),
      m ∈ Set.Icc (0 : ℝ) 1 →
      (∀ x ∈ vs, ∃ v, x = some v ∧ v ∈ Set.Icc (0 : ℝ) 1) →
      (∀ w ∈ ws, 0 ≤ w) →
      ∃ r, powProd vs ws m = some r ∧ r ∈ Set.Icc (0 : ℝ) 1
  | [], ws, m, hm, _, _ => ⟨m, rfl, hm⟩
  | x :: vs, [], m, hm, _, _ => ⟨m, by rw [powProd], hm⟩
  | x :: vs, w :: ws, m, hm, hv, hw => by
    obtain ⟨v, hx, hv0, hv1⟩ := hv x (List.mem_cons_self _ _)
    subst hx
    have hw0 : 0 ≤ w := hw w (List.mem_cons_self _ _)
    have hnot : ¬(v = 0 ∧ w < 0) := fun ⟨_, hlt⟩ => absurd hw0 (not_le.mpr hlt)
    rw [powProd, if_neg hnot]
    exact powProd_mem_Icc vs ws (m * v ^ w)
      ⟨mul_nonneg hm.1 (Real.rpow_nonneg hv0 w),
        mul_le_one₀ hm.2 (Real.rpow_nonneg hv0 w) (Real.rpow_le_one hv0 hv1 hw0)⟩
      (fun y hy => hv y (List.mem_cons_of_mem _ hy))
      (fun y hy => hw y (List.mem_cons_of_mem _ hy))

/-! ### Unfolding lemmas for `calc_reward_from_objective_values` -/

lemma scale_value_max (x : ℝ) : scale_value "max_gauss" x = some (max_gauss x) := by
  rw [scale_value, if_pos rfl]

lemma scale_value_min (x : ℝ) : scale_value "min_gauss" x = some (min_gauss x) := by
  rw [scale_value, if_neg (by decide), if_pos rfl]

lemma scale_value_other {s : String} (x : ℝ)
    (h1 : s ≠ "max_gauss") (h2 : s ≠ "min_gauss") : scale_value s x = none := by
  rw [scale_value, if_neg h1, if_neg h2]

lemma scale_value_good {s : String} (x : ℝ)
    (h : s = "max_gauss" ∨ s = "min_gauss") :
    ∃ u, scale_value s x = some u ∧ u ∈ Set.Icc (0 : ℝ) 1 := by
  rcases h with h | h <;> subst h
  · exact ⟨max_gauss x, scale_value_max x, max_gauss_mem_Icc x⟩
  · exact ⟨min_gauss x, scale_value_min x, min_gauss_mem_Icc x⟩

lemma calc_reward_eq_of_four_values (e b s q : ℝ) (conf : RewardConf) :
    calc_reward_from_objective_values [some e, some b, some s, some q] conf =
      match powProd [scale_value conf.scaling_function.egfr e,
          scale_value conf.scaling_function.bace1 b,
          some (minmax (-1 * s) (-10) (-1)), some q] conf.weight 1 with
      | none => none
      | some multiplication_value =>
          if conf.weight.sum = 0 then none
          else some (multiplication_value ^ ((1 : ℝ) / conf.weight.sum)) := by
  unfold calc_reward_from_objective_values
  rw [if_neg (by simp)]

/-! ### Claim theorems about the reward calculator -/

/-- C1: for every list of sub-objective values and every configuration, if any
of the values is `None` then `calc_reward_from_objective_values` returns
exactly `-1` (lines 53–54 of `reward/dscore_reward.py`). -/
theorem C1_none_value_gives_minus_one
    (values : List (Option ℝ)) (conf : RewardConf) (h : none ∈ values) :
    calc_reward_from_objective_values values conf = some (-1) := by
  unfold calc_reward_from_objective_values
  rw [if_pos h]

/-- Witness for C1 at the concrete input `[None, 1, 2, 0.5]`. -/
theorem C1_none_value_gives_minus_one_witness :
    calc_reward_from_objective_values [none, some 1, some 2, some (1 / 2)]
      ⟨[1, 1, 1, 1], ⟨"max_gauss", "min_gauss"⟩⟩ = some (-1) :=
  C1_none_value_gives_minus_one _ _ (List.mem_cons_self _ _)

/-- C2 counterexample: at the concrete input `values = [8, 8, 2, 0.5]` (no
`None` among the four sub-objective values) and the configuration selecting
the `"minmax"` scaling for the egfr sub-objective, the call does not return a
value in `[0,1]`: the scaled egfr value stays `None` (lines 60–61) and the
multiplication loop raises `TypeError` (modelled `none`). -/
theorem C2_counterexample_minmax_scaling_raises :
    (none ∉ ([some 8, some 8, some 2, some (1 / 2)] : List (Option ℝ))) ∧
    calc_reward_from_objective_values [some 8, some 8, some 2, some (1 / 2)]
      ⟨[1, 1, 1, 1], ⟨"minmax", "max_gauss"⟩⟩ = none := by
  refine ⟨by simp, ?_⟩
  rw [calc_reward_eq_of_four_values]
  rw [show (⟨[1, 1, 1, 1], ⟨"minmax", "max_gauss"⟩⟩ : RewardConf).scaling_function.egfr
      = "minmax" from rfl]
  rw [scale_value_other 8 (by decide) (by decide)]
  rfl

/-- C2 as amended: if the scaling settings chosen for the two bioactivity
sub-objectives are among `max_gauss` and `min_gauss`, the SA score lies in
`[1,10]`, the QED value lies in `[0,1]`, and the configured weights are
nonnegative with positive sum, then `calc_reward_from_objective_values` on
four non-`None` values returns a value in `[0,1]`. -/
theorem C2_amended_reward_in_unit_interval
    (e b s q : ℝ) (conf : RewardConf)
    (hegfr : conf.scaling_function.egfr = "max_gauss" ∨
      conf.scaling_function.egfr = "min_gauss")
    (hbace : conf.scaling_function.bace1 = "max_gauss" ∨
      conf.scaling_function.bace1 = "min_gauss")
    (hs1 : 1 ≤ s) (hs10 : s ≤ 10) (hq0 : 0 ≤ q) (hq1 : q ≤ 1)
    (hw : ∀ w ∈ conf.weight, 0 ≤ w) (hsum : 0 < conf.weight.sum) :
    ∃ r, calc_reward_from_objective_values [some e, some b, some s, some q] conf
        = some r ∧ 0 ≤ r ∧ r ≤ 1 := by
  obtain ⟨u₁, hu₁, hm₁⟩ := scale_value_good e hegfr
  obtain ⟨u₂, hu₂, hm₂⟩ := scale_value_good b hbace
  obtain ⟨r, hr, hr0, hr1⟩ := powProd_mem_Icc
    [scale_value conf.scaling_function.egfr e,
      scale_value conf.scaling_function.bace1 b,
      some (minmax (-1 * s) (-10) (-1)), some q] conf.weight 1
    ⟨by norm_num, by norm_num⟩
    (by
      intro x hx
      simp only [List.mem_cons, List.not_mem_nil, or_false] at hx
      rcases hx with h | h | h | h <;> subst h
      · exact ⟨u₁, hu₁, hm₁⟩
      · exact ⟨u₂, hu₂, hm₂⟩
      · exact ⟨_, rfl, minmax_sascore_mem_Icc hs1 hs10⟩
      · exact ⟨q, rfl, hq0, hq1⟩)
    hw
  refine ⟨r ^ ((1 : ℝ) / conf.weight.sum), ?_, Real.rpow_nonneg hr0 _,
    Real.rpow_le_one hr0 hr1 (div_pos one_pos hsum).le⟩
  rw [calc_reward_eq_of_four_values, hr]
  dsimp only
  rw [if_neg hsum.ne']

/-- Witness for the amended C2 at the concrete input
`values = [9, 1, 2, 0.5]`, weights `[1, 1, 1, 1]`, scalings
`max_gauss`/`min_gauss`. -/
theorem C2_amended_reward_in_unit_interval_witness :
    ∃ r, calc_reward_from_objective_values [some 9, some 1, some 2, some (1 / 2)]
        ⟨[1, 1, 1, 1], ⟨"max_gauss", "min_gauss"⟩⟩ = some r ∧ 0 ≤ r ∧ r ≤ 1 :=
  C2_amended_reward_in_unit_interval 9 1 2 (1 / 2) _
    (Or.inl rfl) (Or.inr rfl) (by norm_num) (by norm_num) (by norm_num)
    (by norm_num) (by intro w hw; simp at hw; norm_num [hw]) (by norm_num)

/-- C3 counterexample: at a concrete input with no `None` sub-objective and a
configuration that selects the documented `"minmax"` (linear min-max) shaping
for the egfr bioactivity sub-objective,
`calc_reward_from_objective_values` does not return a reward: the call raises
(modelled `none`), because only `max_gauss` and `min_gauss` are dispatched for
egfr/bace1 (lines 56–61). -/
theorem C3_counterexample_minmax_not_supported :
    calc_reward_from_objective_values [some 5, some 5, some 5, some 1]
      ⟨[2, 1, 1, 1], ⟨"minmax", "min_gauss"⟩⟩ = none := by
  rw [calc_reward_eq_of_four_values]
  rw [show (⟨[2, 1, 1, 1], ⟨"minmax", "min_gauss"⟩⟩ : RewardConf).scaling_function.egfr
      = "minmax" from rfl]
  rw [scale_value_other 5 (by decide) (by decide)]
  rfl

/-- C3 as amended: for a bioactivity sub-objective (egfr or bace1), the
supported scaling settings are exactly `max_gauss` and `min_gauss`, each of
which rescales the sub-objective onto `[0,1]`; the linear min-max setting
`"minmax"` is not supported there (it leaves the scaled value `None`, so the
reward call raises). Linear min-max is applied only to the SA score
sub-objective, where it maps `[1,10]` onto `[0,1]`. -/
theorem C3_amended_supported_scalings (x : ℝ) :
    (scale_value "max_gauss" x = some (max_gauss x) ∧
      max_gauss x ∈ Set.Icc (0 : ℝ) 1) ∧
    (scale_value "min_gauss" x = some (min_gauss x) ∧
      min_gauss x ∈ Set.Icc (0 : ℝ) 1) ∧
    scale_value "minmax" x = none ∧
    (1 ≤ x → x ≤ 10 → minmax (-1 * x) (-10) (-1) ∈ Set.Icc (0 : ℝ) 1) :=
  ⟨⟨scale_value_max x, max_gauss_mem_Icc x⟩,
    ⟨scale_value_min x, min_gauss_mem_Icc x⟩,
    scale_value_other x (by decide) (by decide),
    fun h1 h10 => minmax_sascore_mem_Icc h1 h10⟩

/-- Witness for the amended C3 at `x = 3`. -/
theorem C3_amended_supported_scalings_witness :
    scale_value "max_gauss" 3 = some (max_gauss 3) ∧
    scale_value "minmax" 3 = none ∧
    minmax (-1 * 3) (-10) (-1) ∈ Set.Icc (0 : ℝ) 1 :=
  ⟨(C3_amended_supported_scalings 3).1.1,
    (C3_amended_supported_scalings 3).2.2.1,
    (C3_amended_supported_scalings 3).2.2.2 (by norm_num) (by norm_num)⟩

/-- C6: `calc_reward_from_objective_values` is deterministic: two calls with
equal value lists and equal configurations return equal results. -/
theorem C6_deterministic
    (v₁ v₂ : List (Option ℝ)) (c₁ c₂ : RewardConf)
    (hv : v₁ = v₂) (hc : c₁ = c₂) :
    calc_reward_from_objective_values v₁ c₁ =
      calc_reward_from_objective_values v₂ c₂ := by
  rw [hv, hc]

/-- Witness for C6 at a concrete repeated input. -/
theorem C6_deterministic_witness :
    calc_reward_from_objective_values [some 3, some 4, some 2, some (1 / 2)]
        ⟨[1, 1, 1, 1], ⟨"max_gauss", "min_gauss"⟩⟩ =
      calc_reward_from_objective_values [some 3, some 4, some 2, some (1 / 2)]
        ⟨[1, 1, 1, 1], ⟨"max_gauss", "min_gauss"⟩⟩ :=
  C6_deterministic _ _ _ _ rfl rfl

/-! ### The configuration dictionary of `run_chemts.py`

A YAML-loaded Python configuration dictionary is modelled as an
insertion-ordered association list.  The values occurring in
`run_chemts.py` are booleans, integers, floats (modelled as `ℚ`),
strings, lists of token strings, and flat sub-dictionaries. -/

/-- A primitive (scalar) configuration value. -/
inductive CPrim where
  | b : Bool → CPrim
  | i : ℤ → CPrim
  | q : ℚ → CPrim
  | s : String → CPrim
deriving DecidableEq, Repr

/-- A configuration value: a primitive, a list of token strings, or a flat
sub-dictionary. -/
inductive CVal where
  | p : CPrim → CVal
  | sl : List String → CVal
  | dict : List (String × CPrim) → CVal
deriving DecidableEq, Repr

/-- A configuration dictionary: an insertion-ordered association list with
(in any state reachable from YAML loading) pairwise-distinct keys. -/
abbrev Conf : Type := List (String × CVal)

/-- Python's `dict.setdefault(k, v)`: if `k` is present the dictionary is
unchanged, otherwise `(k, v)` is inserted at the end. -/
def setdefault (conf : Conf) (k : String) (v : CVal) : Conf :=
  if (List.lookup k conf).isSome then conf else conf ++ [(k, v)]

/-- The default key/value pairs set by `set_default_config`
(`run_chemts.py` lines 60–115), in source order. -/
def default_config_entries : List (String × CVal) :=
  [("trial", .p (.i 1)),
   ("c_val", .p (.q 1)),
   ("threshold_type", .p (.s "time")),
   ("hours", .p (.i 1)),
   ("generation_num", .p (.i 1000)),
   ("simulation_num", .p (.i 3)),
   ("expansion_threshold", .p (.q (995 / 1000))),
   ("flush_threshold", .p (.i (-1))),
   ("infinite_loop_threshold_for_selection", .p (.i 1000)),
   ("infinite_loop_threshold_for_expansion", .p (.i 20)),
   ("use_lipinski_filter", .p (.b true)),
   ("lipinski_filter", .dict [("module", .s "filter.lipinski_filter"),
     ("class", .s "LipinskiFilter"), ("type", .s "rule_of_5")]),
   ("use_radical_filter", .p (.b true)),
   ("radical_filter", .dict [("module", .s "filter.radical_filter"),
     ("class", .s "RadicalFilter")]),
   ("use_hashimoto_filter", .p (.b true)),
   ("hashimoto_filter", .dict [("module", .s "filter.hashimoto_filter"),
     ("class", .s "HashimotoFilter")]),
   ("use_sascore_filter", .p (.b true)),
   ("sascore_filter", .dict [("module", .s "filter.sascore_filter"),
     ("class", .s "SascoreFilter"), ("threshold", .q (35 / 10))]),
   ("use_ring_size_filter", .p (.b true)),
   ("ring_size_filter", .dict [("module", .s "filter.ring_size_filter"),
     ("class", .s "RingSizeFilter"), ("threshold", .i 6)]),
   ("include_filter_result_in_reward", .p (.b false)),
   ("model_json", .p (.s "model/model.json")),
   ("model_weight", .p (.s "model/model.h5")),
   ("output_dir", .p (.s "result")),
   ("reward_setting", .dict [("reward_module", .s "reward.logP_reward"),
     ("reward_class", .s "LogP_reward")]),
   ("policy_setting", .dict [("policy_module", .s "policy.ucb1"),
     ("policy_class", .s "Ucb1")]),
   ("token", .p (.s "model/tokens.pkl")),
   ("leaf_parallel", .p (.b false)),
   ("qsub_parallel", .p (.b false)),
   ("save_checkpoint", .p (.b false)),
   ("restart", .p (.b false)),
   ("checkpoint_file", .p (.b false)),
   ("neutralization", .p (.b false))]

/-- `set_default_config(conf)` (`run_chemts.py` lines 59–115): a sequence of
`conf.setdefault(...)` calls, i.e. a fold of `setdefault` over
`default_config_entries` in source order. -/
def set_default_config (conf : Conf) : Conf :=
  default_config_entries.foldl (fun c kv => setdefault c kv.1 kv.2) conf

/-- Python truthiness of the comparison `frag != True` in
`get_filter_modules`, i.e. whether a configuration value compares equal to
`True` (`True == 1` and `True == 1.0` in Python). -/
def pyEqTrue : CVal → Bool
  | .p (.b x) => x
  | .p (.i n) => n == 1
  | .p (.q r) => r == 1
  | _ => false

/-- Whether a key matches the anchored regular expression `^use.*filter$` of
`get_filter_modules`: equivalently (for keys without newline characters), the
key is `"use" ++ X ++ "filter"` for some (possibly empty) `X`, i.e. it starts
with `use`, ends with `filter`, and is at least 9 characters long. -/
def matchesUseFilter (k : String) : Bool :=
  "use".data.isPrefixOf k.data && "filter".data.isSuffixOf k.data &&
    decide (9 ≤ k.data.length)

/-- Python's `str.replace(pat, repl)` on character lists: replaces the
non-overlapping occurrences of `pat` left to right (`fuel` bounds the scan and
is instantiated with the string length). -/
def replaceChars (pat repl : List Char) : Nat → List Char → List Char
  | _, [] => []
  | 0, s => s
  | fuel + 1, c :: rest =>
      if pat.isPrefixOf (c :: rest) then
        repl ++ replaceChars pat repl fuel ((c :: rest).drop pat.length)
      else c :: replaceChars pat repl fuel rest

/-- Python's `k.replace(pat, repl)` for strings. -/
def strReplace (k pat repl : String) : String :=
  String.mk (replaceChars pat.data repl.data k.data.length k.data)

/-- `get_filter_modules(conf)` (`run_chemts.py` lines 119–127): iterate over
the configuration in insertion order; for every key matching `^use.*filter$`
whose value equals `True`, strip `use_` and look up the named module/class
sub-dictionary.  An imported filter class is represented by its
`(module, class)` name pair; `none` models a `KeyError`/`TypeError` when the
sub-dictionary or its `module`/`class` entries are missing or malformed. -/
def get_filter_modules (conf : Conf) : Option (List (String × String)) :=
  conf.foldl
    (fun acc kv =>
      match acc with
      | none => none
      | some l =>
        if matchesUseFilter kv.1 && pyEqTrue kv.2 then
          match List.lookup (strReplace kv.1 "use_" "") conf with
          | some (.dict d) =>
            match List.lookup "module" d, List.lookup "class" d with
            | some (.s m), some (.s c) => some (l ++ [(m, c)])
            | _, _ => none
          | _ => none
        else some l)
    (some [])

/-- Python's `dict.pop(k)`: removes the entry for `k`; raises `KeyError`
(modelled `none`) when `k` is absent. -/
def popKey (conf : Conf) (k : String) : Option Conf :=
  if (List.lookup k conf).isSome then
    some (conf.eraseP (fun kv => kv.1 == k))
  else none

/-- The budget-field trimming in `main` (`run_chemts.py` lines 156–159):
`threshold_type == 'time'` pops `generation_num`,
`threshold_type == 'generation_num'` pops `hours`; other values leave the
configuration unchanged.  `none` models a `KeyError`. -/
def budget_trim (conf : Conf) : Option Conf :=
  match List.lookup "threshold_type" conf with
  | none => none
  | some (CVal.p (CPrim.s t)) =>
    if t = "time" then popKey conf "generation_num"
    else if t = "generation_num" then popKey conf "hours"
    else some conf
  | some _ => some conf

/-- Python's `conf[k] = v`: replaces the value of an existing key in place,
otherwise inserts `(k, v)` at the end. -/
def assign (conf : Conf) (k : String) (v : CVal) : Conf :=
  if (List.lookup k conf).isSome then
    conf.map (fun kv => cond (kv.1 == k) (kv.1, v) kv)
  else conf ++ [(k, v)]

/-- Modelled from the spec: `chemts.State` (spec §3, §4.1) — an ordered token
sequence; `State()` starts empty and `State(position=toks)` is pre-seeded
with a token prefix.  The source of `chemts.py` is missing from the
excerpt. -/
structure State where
  position : List String
deriving DecidableEq, Repr

/-- Modelled from the spec: `misc.preprocessing.smi_tokenizer` — splits a
SMILES string into a list of tokens; the spec fixes no algorithm, so it is
modelled as splitting into single-character tokens.  The source of
`misc/preprocessing.py` is missing from the excerpt. -/
def smi_tokenizer (smi : String) : List String :=
  smi.data.map (fun c => String.mk [c])

/-- The extend-mode setup in `main` (`run_chemts.py` lines 151–154 and 173):
when `input_smiles` is given, record it and its tokenization in the
configuration and build the root `State` from `conf["tokenized_smiles"]`;
otherwise build the empty root `State`.  `none` models a `KeyError`. -/
def setup_root_state (conf : Conf) (input_smiles : Option String) :
    Option (Conf × State) :=
  match input_smiles with
  | none => some (conf, ⟨[]⟩)
  | some smi =>
    let c₁ := assign conf "input_smiles" (.p (.s smi))
    let c₂ := assign c₁ "tokenized_smiles" (.sl (smi_tokenizer smi))
    match List.lookup "tokenized_smiles" c₂ with
    | some (.sl ts) => some (c₂, ⟨ts⟩)
    | _ => none

/-! ### Association-list lemmas for the configuration model -/

lemma lookup_append_of_some {k : String} {v : CVal} :
    ∀ {c₁ : Conf} (c₂ : Conf), List.lookup k c₁ = some v →
      List.lookup k (c₁ ++ c₂) = some v
  | [], _, h => by simp [List.lookup] at h
  | (a, b) :: t, c₂, h => by
    by_cases hk : k = a
    · subst hk
      simp only [List.lookup, beq_self_eq_true, List.cons_append] at h ⊢
      exact h
    · simp only [List.lookup, beq_eq_false_iff_ne.mpr hk, List.cons_append] at h ⊢
      exact lookup_append_of_some c₂ h

lemma lookup_append_of_none {k : String} :
    ∀ {c₁ : Conf} (c₂ : Conf), List.lookup k c₁ = none →
      List.lookup k (c₁ ++ c₂) = List.lookup k c₂
  | [], _, _ => by simp
  | (a, b) :: t, c₂, h => by
    by_cases hk : k = a
    · subst hk
      simp only [List.lookup, beq_self_eq_true] at h
      cases h
    · simp only [List.lookup, beq_eq_false_iff_ne.mpr hk, List.cons_append] at h ⊢
      exact lookup_append_of_none c₂ h

lemma lookup_setdefault_of_some {c : Conf} {k k' : String} {v v' : CVal}
    (h : List.lookup k c = some v) :
    List.lookup k (setdefault c k' v') = some v := by
  unfold setdefault
  by_cases hp : (List.lookup k' c).isSome
  · rw [if_pos hp]; exact h
  · rw [if_neg hp]; exact lookup_append_of_some _ h

lemma lookup_setdefault_self_isSome (c : Conf) (k : String) (v : CVal) :
    (List.lookup k (setdefault c k v)).isSome := by
  unfold setdefault
  by_cases hp : (List.lookup k c).isSome
  · rw [if_pos hp]; exact hp
  · rw [if_neg hp]
    rw [lookup_append_of_none _ (Option.not_isSome_iff_eq_none.mp hp)]
    simp [List.lookup]

lemma lookup_setdefault_isSome {c : Conf} {k : String} (k' : String) (v' : CVal)
    (h : (List.lookup k c).isSome) :
    (List.lookup k (setdefault c k' v')).isSome := by
  obtain ⟨v, hv⟩ := Option.isSome_iff_exists.mp h
  rw [lookup_setdefault_of_some hv]
  rfl

/-- C9: `set_default_config` never overwrites a key already present: the
looked-up value of every present key is unchanged (it only inserts defaults
for absent keys, since `dict.setdefault` is a no-op on present keys). -/
theorem C9_set_default_config_preserves_user_settings
    (conf : Conf) (k : String) (v : CVal)
    (h : List.lookup k conf = some v) :
    List.lookup k (set_default_config conf) = some v := by
  unfold set_default_config
  generalize default_config_entries = ds
  induction ds generalizing conf with
  | nil => exact h
  | cons kv ds ih => exact ih _ (lookup_setdefault_of_some h)

/-- Witness for C9: a user-supplied `hours: 7` survives `set_default_config`
(the default would be `1`). -/
theorem C9_set_default_config_preserves_user_settings_witness :
    List.lookup "hours" (set_default_config [("hours", CVal.p (.i 7))]) =
      some (CVal.p (.i 7)) :=
  C9_set_default_config_preserves_user_settings _ _ _ rfl

lemma lookup_foldl_setdefault_isSome {k : String} :
    ∀ (ds : List (String × CVal)) (c : Conf),
      (List.lookup k c).isSome ∨ k ∈ ds.map Prod.fst →
      (List.lookup k (ds.foldl (fun a kv => setdefault a kv.1 kv.2) c)).isSome
  | [], c, h => by
    rcases h with h | h
    · exact h
    · simp at h
  | (k', v') :: ds, c, h => by
    rw [List.foldl_cons]
    rcases h with h | h
    · exact lookup_foldl_setdefault_isSome ds _ (Or.inl (lookup_setdefault_isSome k' v' h))
    · rw [List.map_cons, List.mem_cons] at h
      rcases h with h | h
      · subst h
        exact lookup_foldl_setdefault_isSome ds _
          (Or.inl (lookup_setdefault_self_isSome c k v'))
      · exact lookup_foldl_setdefault_isSome ds _ (Or.inr h)

lemma lookup_eq_none_iff_not_mem {k : String} :
    ∀ {c : Conf}, List.lookup k c = none ↔ k ∉ c.map Prod.fst
  | [] => by simp
  | (a, b) :: t => by
    rw [List.map_cons, List.mem_cons]
    by_cases hk : k = a
    · subst hk
      simp only [List.lookup, beq_self_eq_true]
      simp
    · simp only [List.lookup, beq_eq_false_iff_ne.mpr hk]
      rw [lookup_eq_none_iff_not_mem (c := t)]
      simp [hk]

lemma keys_setdefault_nodup {c : Conf} {k : String} {v : CVal}
    (h : (c.map Prod.fst).Nodup) :
    (((setdefault c k v).map Prod.fst)).Nodup := by
  unfold setdefault
  by_cases hp : (List.lookup k c).isSome
  · rw [if_pos hp]; exact h
  · rw [if_neg hp]
    have hk : k ∉ c.map Prod.fst :=
      lookup_eq_none_iff_not_mem.mp (Option.not_isSome_iff_eq_none.mp hp)
    rw [List.map_append]
    refine List.Nodup.append h (List.nodup_singleton k) ?_
    intro x hx hx'
    rw [List.map_singleton, List.mem_singleton] at hx'
    subst hx'
    exact hk hx

lemma keys_foldl_setdefault_nodup :
    ∀ (ds : List (String × CVal)) {c : Conf}, (c.map Prod.fst).Nodup →
      (((ds.foldl (fun a kv => setdefault a kv.1 kv.2) c).map Prod.fst)).Nodup
  | [], _, h => h
  | (k', v') :: ds, c, h => by
    rw [List.foldl_cons]
    exact keys_foldl_setdefault_nodup ds (keys_setdefault_nodup h)

lemma lookup_eraseP_self {k : String} :
    ∀ {c : Conf}, (c.map Prod.fst).Nodup →
      (List.lookup k c).isSome →
      List.lookup k (c.eraseP (fun kv => kv.1 == k)) = none
  | [], _, h => by simp [List.lookup] at h
  | (a, b) :: t, hnd, h => by
    rw [List.map_cons] at hnd
    obtain ⟨hna, hnt⟩ := List.nodup_cons.mp hnd
    by_cases hk : k = a
    · subst hk
      rw [List.eraseP_cons_of_pos (p := fun kv => kv.1 == k) (l := t)
        (by simp)]
      exact lookup_eq_none_iff_not_mem.mpr hna
    · rw [List.eraseP_cons_of_neg (p := fun kv => kv.1 == k) (l := t)
        (by simpa using fun hh => hk hh.symm)]
      simp only [List.lookup, beq_eq_false_iff_ne.mpr hk]
      exact lookup_eraseP_self hnt
        (by simpa [List.lookup, beq_eq_false_iff_ne.mpr hk] using h)

lemma lookup_eraseP_other {k k' : String} (hne : k' ≠ k) :
    ∀ (c : Conf),
      List.lookup k' (c.eraseP (fun kv => kv.1 == k)) = List.lookup k' c
  | [] => by simp
  | (a, b) :: t => by
    by_cases hak : a = k
    · subst hak
      rw [List.eraseP_cons_of_pos (p := fun kv => kv.1 == a) (l := t) (by simp)]
      simp only [List.lookup, beq_eq_false_iff_ne.mpr hne]
    · rw [List.eraseP_cons_of_neg (p := fun kv => kv.1 == k) (l := t)
        (by simpa using hak)]
      by_cases hk : k' = a
      · subst hk
        simp only [List.lookup, beq_self_eq_true]
      · simp only [List.lookup, beq_eq_false_iff_ne.mpr hk]
        exact lookup_eraseP_other hne t

/-! ### Claim theorems about `run_chemts.py` -/

lemma budget_trim_of_time {c : Conf}
    (ht : List.lookup "threshold_type" c = some (.p (.s "time"))) :
    budget_trim c = popKey c "generation_num" := by
  unfold budget_trim
  rw [ht]
  rfl

lemma budget_trim_of_generation_num {c : Conf}
    (ht : List.lookup "threshold_type" c = some (.p (.s "generation_num"))) :
    budget_trim c = popKey c "hours" := by
  unfold budget_trim
  rw [ht]
  rfl

/-- C4: after `set_default_config`, the budget trimming of `main`
(lines 156–159) leaves exactly one budget field: if `threshold_type` is
`'time'` the key `generation_num` is removed (and `hours` remains), and if it
is `'generation_num'` the key `hours` is removed (and `generation_num`
remains). -/
theorem C4_exactly_one_budget_field
    (conf : Conf) (hnd : (conf.map Prod.fst).Nodup) :
    (List.lookup "threshold_type" (set_default_config conf) =
        some (.p (.s "time")) →
      ∃ c', budget_trim (set_default_config conf) = some c' ∧
        List.lookup "generation_num" c' = none ∧
        (List.lookup "hours" c').isSome) ∧
    (List.lookup "threshold_type" (set_default_config conf) =
        some (.p (.s "generation_num")) →
      ∃ c', budget_trim (set_default_config conf) = some c' ∧
        List.lookup "hours" c' = none ∧
        (List.lookup "generation_num" c').isSome) := by
  have hndc : ((set_default_config conf).map Prod.fst).Nodup :=
    keys_foldl_setdefault_nodup _ hnd
  have hgen : (List.lookup "generation_num" (set_default_config conf)).isSome :=
    lookup_foldl_setdefault_isSome _ _ (Or.inr (by decide))
  have hhours : (List.lookup "hours" (set_default_config conf)).isSome :=
    lookup_foldl_setdefault_isSome _ _ (Or.inr (by decide))
  constructor
  · intro ht
    have h2 : popKey (set_default_config conf) "generation_num" =
        some ((set_default_config conf).eraseP
          (fun kv => kv.1 == "generation_num")) := by
      unfold popKey
      rw [if_pos hgen]
    refine ⟨_, (budget_trim_of_time ht).trans h2,
      lookup_eraseP_self hndc hgen, ?_⟩
    rw [lookup_eraseP_other (by decide)]
    exact hhours
  · intro ht
    have h2 : popKey (set_default_config conf) "hours" =
        some ((set_default_config conf).eraseP (fun kv => kv.1 == "hours")) := by
      unfold popKey
      rw [if_pos hhours]
    refine ⟨_, (budget_trim_of_generation_num ht).trans h2,
      lookup_eraseP_self hndc hhours, ?_⟩
    rw [lookup_eraseP_other (by decide)]
    exact hgen

/-- Witness for C4: on the empty user configuration (default
`threshold_type = 'time'`), `generation_num` is removed and `hours`
remains. -/
theorem C4_exactly_one_budget_field_witness :
    ∃ c', budget_trim (set_default_config []) = some c' ∧
      List.lookup "generation_num" c' = none ∧
      (List.lookup "hours" c').isSome :=
  (C4_exactly_one_budget_field [] (by simp)).1 (by rfl)

/-- The default configuration with the five filter enable-flags set
explicitly by the user (before `set_default_config` fills in everything
else). -/
def default_flag_conf (b₁ b₂ b₃ b₄ b₅ : Bool) : Conf :=
  [("use_lipinski_filter", .p (.b b₁)), ("use_radical_filter", .p (.b b₂)),
   ("use_hashimoto_filter", .p (.b b₃)), ("use_sascore_filter", .p (.b b₄)),
   ("use_ring_size_filter", .p (.b b₅))]

/-- C5: `get_filter_modules` returns exactly the filter classes whose
`use_*_filter` flag is `True`, each independently disableable, and on the
default configuration the chain is in the order: drug-likeness (lipinski),
radical exclusion, duplicate-substructure (hashimoto), synthesizability-score
(sascore), ring-size. -/
theorem C5_filter_chain_order_and_flags :
    (∀ b₁ b₂ b₃ b₄ b₅ : Bool,
      get_filter_modules (set_default_config (default_flag_conf b₁ b₂ b₃ b₄ b₅)) =
        some ((if b₁ then [("filter.lipinski_filter", "LipinskiFilter")] else []) ++
          (if b₂ then [("filter.radical_filter", "RadicalFilter")] else []) ++
          (if b₃ then [("filter.hashimoto_filter", "HashimotoFilter")] else []) ++
          (if b₄ then [("filter.sascore_filter", "SascoreFilter")] else []) ++
          (if b₅ then [("filter.ring_size_filter", "RingSizeFilter")] else []))) ∧
    get_filter_modules (set_default_config []) =
      some [("filter.lipinski_filter", "LipinskiFilter"),
        ("filter.radical_filter", "RadicalFilter"),
        ("filter.hashimoto_filter", "HashimotoFilter"),
        ("filter.sascore_filter", "SascoreFilter"),
        ("filter.ring_size_filter", "RingSizeFilter")] := by
  constructor
  · intro b₁ b₂ b₃ b₄ b₅
    cases b₁ <;> cases b₂ <;> cases b₃ <;> cases b₄ <;> cases b₅ <;> rfl
  · rfl

lemma lookup_map_update_self {k : String} {v : CVal} :
    ∀ {c : Conf}, (List.lookup k c).isSome →
      List.lookup k (c.map (fun kv => cond (kv.1 == k) (kv.1, v) kv)) = some v
  | [], h => by simp [List.lookup] at h
  | (a, b) :: t, h => by
    by_cases hk : k = a
    · subst hk
      simp only [List.map_cons, beq_self_eq_true, Bool.cond_true, List.lookup]
    · have hab : ((a, b).1 == k) = false :=
        beq_eq_false_iff_ne.mpr (fun hh => hk hh.symm)
      have hka : (k == a) = false := beq_eq_false_iff_ne.mpr hk
      simp only [List.lookup, hka] at h
      simp only [List.map_cons, hab, Bool.cond_false, List.lookup, hka]
      exact lookup_map_update_self h

lemma lookup_assign_self (c : Conf) (k : String) (v : CVal) :
    List.lookup k (assign c k v) = some v := by
  unfold assign
  by_cases hp : (List.lookup k c).isSome
  · rw [if_pos hp]
    exact lookup_map_update_self hp
  · rw [if_neg hp,
      lookup_append_of_none _ (Option.not_isSome_iff_eq_none.mp hp)]
    simp [List.lookup]

lemma lookup_map_update_other {k k' : String} {v : CVal} (hne : k' ≠ k) :
    ∀ (c : Conf),
      List.lookup k' (c.map (fun kv => cond (kv.1 == k) (kv.1, v) kv)) =
        List.lookup k' c
  | [] => by simp
  | (a, b) :: t => by
    by_cases hak : a = k
    · subst hak
      simp only [List.map_cons, beq_self_eq_true, Bool.cond_true, List.lookup,
        beq_eq_false_iff_ne.mpr hne]
      exact lookup_map_update_other hne t
    · have hab : ((a, b).1 == k) = false := beq_eq_false_iff_ne.mpr hak
      by_cases hk : k' = a
      · subst hk
        simp only [List.map_cons, hab, Bool.cond_false, List.lookup,
          beq_self_eq_true]
      · simp only [List.map_cons, hab, Bool.cond_false, List.lookup,
          beq_eq_false_iff_ne.mpr hk]
        exact lookup_map_update_other hne t

lemma lookup_assign_other {k k' : String} (hne : k' ≠ k) (c : Conf) (v : CVal) :
    List.lookup k' (assign c k v) = List.lookup k' c := by
  unfold assign
  by_cases hp : (List.lookup k c).isSome
  · rw [if_pos hp]
    exact lookup_map_update_other hne c
  · rw [if_neg hp]
    cases hs : List.lookup k' c with
    | some w => exact lookup_append_of_some _ hs
    | none =>
      rw [lookup_append_of_none _ hs]
      simp [List.lookup, beq_eq_false_iff_ne.mpr hne]

/-- C7: when `input_smiles` is provided, `main` records `input_smiles` and
`tokenized_smiles` in the configuration and builds the root `State` pre-seeded
with the tokenized SMILES prefix (lines 151–154 and 173); when it is absent,
the root `State` is the empty state and the configuration is untouched. -/
theorem C7_extend_mode_root_state :
    (∀ (conf : Conf) (smi : String),
      ∃ c', setup_root_state conf (some smi) =
          some (c', ⟨smi_tokenizer smi⟩) ∧
        List.lookup "input_smiles" c' = some (.p (.s smi)) ∧
        List.lookup "tokenized_smiles" c' = some (.sl (smi_tokenizer smi))) ∧
    (∀ conf : Conf, setup_root_state conf none = some (conf, ⟨[]⟩)) := by
  constructor
  · intro conf smi
    refine ⟨assign (assign conf "input_smiles" (.p (.s smi)))
        "tokenized_smiles" (.sl (smi_tokenizer smi)), ?_, ?_, ?_⟩
    · unfold setup_root_state
      dsimp only
      rw [lookup_assign_self]
    · rw [lookup_assign_other (by decide), lookup_assign_self]
    · rw [lookup_assign_self]
  · intro conf
    rfl

/-! ### Module state of `reward/dscore_reward.py` (claims C8 and C10)

The module loads two pickled LightGBM predictors into the module-level
bindings `lgb_egfr` and `lgb_bace1` (lines 14–22) and defines objective
closures that read them.  To state that nothing rebinds or mutates these
bindings, the module state is threaded explicitly through every operation:
each embedded statement takes the current state and returns the (possibly
updated) state, faithfully transcribing the Python statements, none of which
assigns to the globals.  External library calls (rdkit, lightgbm, sascorer)
are parameters of the embedding. -/

/-- A loaded LightGBM predictor; `predict fp` models
`model.predict([fp])[0]`. -/
structure LGBModel where
  predict : List Bool → ℝ

/-- The external chemistry/scoring functions used by the objective closures:
the Morgan fingerprint (`AllChem.GetMorganFingerprintAsBitVect(mol, 2,
2048)`), the synthetic-accessibility scorer (`sascorer.calculateScore`, which
may raise, e.g. on `None`), and `Chem.QED.qed` (which may raise an
atom-valence error or another error). -/
inductive QedOutcome where
  | ok : ℝ → QedOutcome
  | atomValenceError : QedOutcome
  | otherError : String → QedOutcome

structure ChemEnv (Mol : Type) where
  morganFingerprint : Mol → List Bool
  sascoreCalculateScore : Option Mol → Except String ℝ
  qed : Option Mol → QedOutcome

/-- The module-level state of `reward/dscore_reward.py`: the two model
bindings created at import time (lines 17–22). -/
structure RewardModuleState where
  lgb_egfr : LGBModel
  lgb_bace1 : LGBModel

/-- The import-time model loading (lines 17–22): binds the two unpickled
models.  The pickles themselves are external inputs. -/
def load_models (egfr_pickle bace1_pickle : LGBModel) : RewardModuleState :=
  ⟨egfr_pickle, bace1_pickle⟩

/-- The outcome of calling an objective closure: `Except.error` models an
uncaught Python exception, `Except.ok none` models returning `None`. -/
abbrev ObjResult : Type := Except String (Option ℝ)

/-- An objective closure: reads the module state at call time and returns its
result together with the module state after the call. -/
abbrev ObjFun (Mol : Type) : Type :=
  RewardModuleState → Option Mol → ObjResult × RewardModuleState

/-- The closure `EGFR` (lines 26–30): `None` input short-circuits to `None`;
otherwise the `lgb_egfr` model read from the module state is applied to the
Morgan fingerprint. -/
def EGFR {Mol : Type} (env : ChemEnv Mol) : ObjFun Mol := fun s mol =>
  match mol with
  | none => (.ok none, s)
  | some m => (.ok (some (s.lgb_egfr.predict (env.morganFingerprint m))), s)

/-- The closure `BACE1` (lines 32–36): same as `EGFR` with `lgb_bace1`. -/
def BACE1 {Mol : Type} (env : ChemEnv Mol) : ObjFun Mol := fun s mol =>
  match mol with
  | none => (.ok none, s)
  | some m => (.ok (some (s.lgb_bace1.predict (env.morganFingerprint m))), s)

/-- The closure `SAScore` (lines 38–39): applies the external scorer to its
argument unconditionally — no `None` guard and no exception handling. -/
def SAScore {Mol : Type} (env : ChemEnv Mol) : ObjFun Mol := fun s mol =>
  ((env.sascoreCalculateScore mol).map some, s)

/-- The closure `QED` (lines 41–45): returns `None` exactly when
`Chem.QED.qed` raises `AtomValenceException`; other exceptions propagate. -/
def QED {Mol : Type} (env : ChemEnv Mol) : ObjFun Mol := fun s mol =>
  (match env.qed mol with
   | .ok r => .ok (some r)
   | .atomValenceError => .ok none
   | .otherError e => .error e, s)

/-- `get_objective_functions(conf)` (lines 25–47): defines the four closures
and returns them in order; the module state is read, never written. -/
def get_objective_functions {Mol : Type} (env : ChemEnv Mol) (conf : RewardConf)
    (s : RewardModuleState) : List (ObjFun Mol) × RewardModuleState :=
  ([EGFR env, BACE1 env, SAScore env, QED env], s)

/-- C8: the predictor models are bound once by `load_models` and no operation
of the reward module rebinds or mutates them: `get_objective_functions`
returns the module state unchanged, each of the four closures it returns
leaves the module state unchanged on every call, and the closures read
exactly the models loaded at import time (`EGFR` reads `lgb_egfr`, `BACE1`
reads `lgb_bace1`). -/
theorem C8_models_loaded_once_never_mutated
    (Mol : Type) (env : ChemEnv Mol) (conf : RewardConf)
    (e b : LGBModel) (s : RewardModuleState) (mol : Option Mol) (m : Mol) :
    (get_objective_functions env conf s).2 = s ∧
    (get_objective_functions env conf s).1 =
      [EGFR env, BACE1 env, SAScore env, QED env] ∧
    (EGFR env s mol).2 = s ∧
    (BACE1 env s mol).2 = s ∧
    (SAScore env s mol).2 = s ∧
    (QED env s mol).2 = s ∧
    (EGFR env (load_models e b) (some m)).1 =
      .ok (some (e.predict (env.morganFingerprint m))) ∧
    (BACE1 env (load_models e b) (some m)).1 =
      .ok (some (b.predict (env.morganFingerprint m))) := by
  refine ⟨rfl, rfl, ?_, ?_, rfl, rfl, rfl, rfl⟩ <;> cases mol <;> rfl

/-- C10: of the four objective closures returned by
`get_objective_functions`, `EGFR` and `BACE1` return `None` on a `None`
molecule for every module state (so without invoking the predictor), `QED`
returns `None` exactly when the QED computation raises an atom-valence error,
and `SAScore` applies the external scorer unconditionally — its result is the
scorer's result even on a `None` molecule. -/
theorem C10_objective_function_guards
    (Mol : Type) (env : ChemEnv Mol) (conf : RewardConf)
    (s : RewardModuleState) (mol : Option Mol) :
    (get_objective_functions env conf s).1 =
      [EGFR env, BACE1 env, SAScore env, QED env] ∧
    (EGFR env s none).1 = .ok none ∧
    (BACE1 env s none).1 = .ok none ∧
    (env.qed mol = .atomValenceError → (QED env s mol).1 = .ok none) ∧
    (SAScore env s mol).1 = (env.sascoreCalculateScore mol).map some := by
  refine ⟨rfl, rfl, rfl, ?_, rfl⟩
  intro h
  unfold QED
  rw [h]

/-- Witness for C10 at a concrete environment whose QED computation raises an
atom-valence error on the given molecule. -/
theorem C10_objective_function_guards_witness :
    (@QED Unit ⟨fun _ => [], fun _ => .ok 0, fun _ => .atomValenceError⟩
        ⟨⟨fun _ => 0⟩, ⟨fun _ => 0⟩⟩ (some ())).1 = .ok none ∧
    (@EGFR Unit ⟨fun _ => [], fun _ => .ok 0, fun _ => .atomValenceError⟩
        ⟨⟨fun _ => 0⟩, ⟨fun _ => 0⟩⟩ none).1 = .ok none :=
  ⟨(C10_objective_function_guards Unit
      ⟨fun _ => [], fun _ => .ok 0, fun _ => .atomValenceError⟩
      ⟨[], ⟨"max_gauss", "min_gauss"⟩⟩
      ⟨⟨fun _ => 0⟩, ⟨fun _ => 0⟩⟩ (some ())).2.2.2.1 rfl,
    (C10_objective_function_guards Unit
      ⟨fun _ => [], fun _ => .ok 0, fun _ => .atomValenceError⟩
      ⟨[], ⟨"max_gauss", "min_gauss"⟩⟩
      ⟨⟨fun _ => 0⟩, ⟨fun _ => 0⟩⟩ (some ())).2.1⟩

end ChemTS
